import Mathlib

/-!
Shallow embedding of `src/common/src/evm.rs` from the foundry repository:
the `EvmArgs` / `EnvArgs` CLI-argument overlay and its `figment::Provider`
implementation, plus `EvmArgs::ensure_fork_url`.

Modelling conventions:
* Rust `Option<T>` becomes Lean `Option`; `u64`/`u8`/`usize` payloads become
  `Nat` (no arithmetic is performed on them, so no wrap-around is relevant);
  `U256`/`Address`/`H256`/`Chain` payloads are carried opaquely as `Nat`
  under distinct `Value` constructors.
* `figment::value::Value` is modelled by `Value` (scalar leaves) together
  with `FigValue` for the top-level serialization result, which is either a
  scalar or a dictionary; `Dict` is an association list with `BTreeMap`-like
  insert (replace value in place when the key exists, append otherwise).
* serde derive semantics for the two structs follow the attributes in the
  source: fields are emitted in declaration order; `#[serde(skip)]` fields
  (`no_storage_caching`, `ffi`, `verbosity`, `no_rpc_rate_limit`) are never
  emitted; `#[serde(skip_serializing_if = "Option::is_none")]` fields are
  emitted only when `Some`; `#[serde(rename = "eth_rpc_url")]` renames
  `fork_url`; `#[serde(flatten)]` inlines the `EnvArgs` fields in place.
  `compute_units_per_second` carries no serde attribute, so it is always
  emitted; figment's value serializer turns `Option::None` into an
  `Empty::None` value, modelled as `Value.empty`.
-/

namespace FoundryEvm

/-- A figment configuration value (scalar leaves only; the overlay never
nests dictionaries inside field values). -/
inductive Value where
  | str (s : String)
  | nat (n : Nat)
  | boolV (b : Bool)
  | chain (c : Nat)
  | addr (a : Nat)
  | h256 (h : Nat)
  | u256 (u : Nat)
  | empty
deriving DecidableEq, Repr

/-- `figment::value::Dict`: a string-keyed map, modelled as an association
list with in-place-replacing insert. -/
abbrev Dict := List (String × Value)

/-- Key lookup in a `Dict`. -/
def dictLookup (d : Dict) (k : String) : Option Value :=
  match d with
  | [] => none
  | (k', v) :: rest => if k = k' then some v else dictLookup rest k

/-- `BTreeMap::insert`: replace the value in place when the key is present,
append the pair otherwise. -/
def dictInsert (d : Dict) (k : String) (v : Value) : Dict :=
  match d with
  | [] => [(k, v)]
  | (k', v') :: rest => if k = k' then (k, v) :: rest else (k', v') :: dictInsert rest k v

/-- The top-level result of `Value::serialize`: either a scalar value or a
dictionary (serde serializes a struct as a dictionary). -/
inductive FigValue where
  | val (v : Value)
  | dict (d : Dict)
deriving DecidableEq, Repr

/-- `Value::into_dict`: succeeds exactly on dictionaries. -/
def FigValue.into_dict : FigValue → Option Dict
  | .dict d => some d
  | .val _ => none

/-- `Value::to_actual`: the kind-name of a value, used in error messages. -/
def FigValue.to_actual : FigValue → String
  | .dict _ => "a map"
  | .val _ => "a value"

/-- `figment::error::Kind::InvalidType(actual, expected)` — the only error
kind the provider constructs. -/
inductive FigmentError where
  | invalidType (actual : String) (expected : String)
deriving DecidableEq, Repr

/-- `EnvArgs` (executor environment config) from the source, field for
field; every field is `Option` with a `skip_serializing_if` attribute. -/
structure EnvArgs where
  gas_limit : Option Nat := none
  code_size_limit : Option Nat := none
  chain_id : Option Nat := none
  gas_price : Option Nat := none
  block_base_fee_per_gas : Option Nat := none
  tx_origin : Option Nat := none
  block_coinbase : Option Nat := none
  block_timestamp : Option Nat := none
  block_number : Option Nat := none
  block_difficulty : Option Nat := none
  block_prevrandao : Option Nat := none
  block_gas_limit : Option Nat := none
  memory_limit : Option Nat := none
deriving DecidableEq, Repr

/-- `EvmArgs` from the source, field for field, in declaration order. -/
structure EvmArgs where
  fork_url : Option String := none
  fork_block_number : Option Nat := none
  fork_retry_backoff : Option Nat := none
  no_storage_caching : Bool := false
  initial_balance : Option Nat := none
  sender : Option Nat := none
  ffi : Bool := false
  verbosity : Nat := 0
  env : EnvArgs := {}
  compute_units_per_second : Option Nat := none
  no_rpc_rate_limit : Bool := false
deriving DecidableEq, Repr

/-- `#[derive(Default)]` for `EvmArgs`: all options `None`, flags `false`,
verbosity `0`. -/
def defaultEvmArgs : EvmArgs := {}

/-- A field with `#[serde(skip_serializing_if = "Option::is_none")]`:
one dictionary entry when `Some`, nothing when `None`. -/
def optEntry {α : Type} (k : String) (f : α → Value) : Option α → Dict
  | some a => [(k, f a)]
  | none => []

/-- Figment's value serializer on an `Option` field without a skip
attribute: `Some` serializes the payload, `None` becomes `Empty::None`. -/
def serializeOptionValue {α : Type} (f : α → Value) : Option α → Value
  | some a => f a
  | none => Value.empty

/-- serde serialization of the flattened `EnvArgs` fields, in declaration
order; every field skips when `None`. -/
def serializeEnvArgs (e : EnvArgs) : Dict :=
  optEntry "gas_limit" Value.nat e.gas_limit ++
  optEntry "code_size_limit" Value.nat e.code_size_limit ++
  optEntry "chain_id" Value.chain e.chain_id ++
  optEntry "gas_price" Value.nat e.gas_price ++
  optEntry "block_base_fee_per_gas" Value.nat e.block_base_fee_per_gas ++
  optEntry "tx_origin" Value.addr e.tx_origin ++
  optEntry "block_coinbase" Value.addr e.block_coinbase ++
  optEntry "block_timestamp" Value.nat e.block_timestamp ++
  optEntry "block_number" Value.nat e.block_number ++
  optEntry "block_difficulty" Value.nat e.block_difficulty ++
  optEntry "block_prevrandao" Value.h256 e.block_prevrandao ++
  optEntry "block_gas_limit" Value.nat e.block_gas_limit ++
  optEntry "memory_limit" Value.nat e.memory_limit

/-- serde serialization of `EvmArgs` as a dictionary, in declaration order:
`fork_url` is renamed to `eth_rpc_url`; `no_storage_caching`, `ffi`,
`verbosity` and `no_rpc_rate_limit` carry `#[serde(skip)]`; `env` is
flattened in place; `compute_units_per_second` has no skip attribute and is
always emitted (`Empty::None` when unset). -/
def serializeEvmArgsDict (a : EvmArgs) : Dict :=
  optEntry "eth_rpc_url" Value.str a.fork_url ++
  optEntry "fork_block_number" Value.nat a.fork_block_number ++
  optEntry "fork_retry_backoff" Value.nat a.fork_retry_backoff ++
  optEntry "initial_balance" Value.u256 a.initial_balance ++
  optEntry "sender" Value.addr a.sender ++
  serializeEnvArgs a.env ++
  [("compute_units_per_second", serializeOptionValue Value.nat a.compute_units_per_second)]

/-- `Value::serialize(self)` for `EvmArgs`: serde serializes a struct as a
dictionary. -/
def valueSerialize (a : EvmArgs) : FigValue := .dict (serializeEvmArgsDict a)

/-- One conditional manual insert from the body of `Provider::data`. -/
def insertIf (c : Prop) [Decidable c] (k : String) (v : Value) (d : Dict) : Dict :=
  if c then dictInsert d k v else d

/-- The final `if let Some(fork_url) = &self.fork_url` insert from
`Provider::data`. -/
def insertForkUrl (o : Option String) (d : Dict) : Dict :=
  match o with
  | some u => dictInsert d "eth_rpc_url" (Value.str u)
  | none => d

/-- The first four manual inserts performed by `Provider::data` after
serialization: verbosity when positive, then the three flags when true. -/
def manualFlagInserts (a : EvmArgs) (d : Dict) : Dict :=
  insertIf (a.no_rpc_rate_limit = true) "no_rpc_rate_limit" (Value.boolV a.no_rpc_rate_limit)
    (insertIf (a.no_storage_caching = true) "no_storage_caching" (Value.boolV a.no_storage_caching)
      (insertIf (a.ffi = true) "ffi" (Value.boolV a.ffi)
        (insertIf (0 < a.verbosity) "verbosity" (Value.nat a.verbosity) d)))

/-- The full sequence of manual inserts performed by `Provider::data`: the
four conditional inserts, then the fork url when present. -/
def applyManualInserts (a : EvmArgs) (d : Dict) : Dict :=
  insertForkUrl a.fork_url (manualFlagInserts a d)

/-- Modelled from the spec: `Config::selected_profile()` lives in the
`foundry_config` crate, which is not part of the supplied source; the spec
calls it "the currently selected profile key used by the base configuration
system" (e.g. "default"). -/
def selected_profile : String := "default"

/-- `Provider::data` for `EvmArgs`: serialize, convert to a dictionary
(failing with `InvalidType` otherwise), apply the manual inserts, and wrap
the result under the selected profile. -/
def EvmArgs.data (a : EvmArgs) : Except FigmentError (List (String × Dict)) :=
  let value := valueSerialize a
  let error := FigmentError.invalidType value.to_actual "map"
  match value.into_dict with
  | none => .error error
  | some d => .ok [(selected_profile, applyManualInserts a d)]

/-- The profile dictionary `Provider::data` produces (it always succeeds,
see the theorems below). -/
def EvmArgs.finalDict (a : EvmArgs) : Dict :=
  applyManualInserts a (serializeEvmArgsDict a)

/-- The profile dictionary that `Provider::data` would produce without the
final `if let Some(fork_url)` re-insert, for comparison (the re-insert
duplicates what serde serialization already wrote). -/
def EvmArgs.finalDictNoReinsert (a : EvmArgs) : Dict :=
  manualFlagInserts a (serializeEvmArgsDict a)

/-- `EvmArgs::ensure_fork_url`: return the fork url, or fail with the
missing-field message from the source. -/
def EvmArgs.ensure_fork_url (a : EvmArgs) : Except String String :=
  match a.fork_url with
  | some u => .ok u
  | none => .error "Missing `--fork-url` field."

/-- Modelled from the spec: figment's merge of the overlay dictionary onto
a base configuration (the merge engine is in the external `figment` crate):
for each key, a key present in the overlay dictionary wins over the base,
and a key absent from the overlay leaves the base value untouched. -/
def mergeOverlay (base : String → Value) (d : Dict) (k : String) : Value :=
  match dictLookup d k with
  | some v => v
  | none => base k

/-! ### Dictionary lemmas -/

theorem dictLookup_append (d₁ d₂ : Dict) (k : String) :
    dictLookup (d₁ ++ d₂) k = (dictLookup d₁ k).or (dictLookup d₂ k) := by
  induction d₁ with
  | nil => simp [dictLookup]
  | cons p rest ih =>
    obtain ⟨k', v⟩ := p
    simp only [List.cons_append, dictLookup]
    split <;> simp [ih]

theorem dictLookup_optEntry_self {α : Type} (k : String) (f : α → Value) (o : Option α) :
    dictLookup (optEntry k f o) k = o.map f := by
  cases o <;> simp [optEntry, dictLookup]

theorem dictLookup_optEntry_ne {α : Type} {k k' : String} (h : k ≠ k')
    (f : α → Value) (o : Option α) :
    dictLookup (optEntry k' f o) k = none := by
  cases o <;> simp [optEntry, dictLookup, h]

theorem dictLookup_dictInsert_self (d : Dict) (k : String) (v : Value) :
    dictLookup (dictInsert d k v) k = some v := by
  induction d with
  | nil => simp [dictInsert, dictLookup]
  | cons p rest ih =>
    obtain ⟨k', v'⟩ := p
    by_cases h : k = k'
    · simp [dictInsert, dictLookup, h]
    · simp [dictInsert, dictLookup, h, ih]

theorem dictLookup_dictInsert_ne {k k' : String} (h : k ≠ k') (d : Dict) (v : Value) :
    dictLookup (dictInsert d k' v) k = dictLookup d k := by
  induction d with
  | nil => simp [dictInsert, dictLookup, h]
  | cons p rest ih =>
    obtain ⟨k'', v''⟩ := p
    by_cases h2 : k' = k''
    · subst h2
      simp [dictInsert, dictLookup, h]
    · by_cases h3 : k = k''
      · subst h3
        simp [dictInsert, dictLookup, h2]
      · simp [dictInsert, dictLookup, h2, h3, ih]

theorem dictInsert_eq_of_lookup (d : Dict) (k : String) (v : Value)
    (h : dictLookup d k = some v) : dictInsert d k v = d := by
  induction d with
  | nil => simp [dictLookup] at h
  | cons p rest ih =>
    obtain ⟨k', v'⟩ := p
    by_cases h2 : k = k'
    · subst h2
      simp [dictLookup] at h
      simp [dictInsert, h]
    · simp [dictLookup, h2] at h
      simp [dictInsert, h2, ih h]

theorem dictLookup_insertIf_ne {k k' : String} (h : k ≠ k') (c : Prop) [Decidable c]
    (v : Value) (d : Dict) :
    dictLookup (insertIf c k' v d) k = dictLookup d k := by
  unfold insertIf
  split <;> simp [dictLookup_dictInsert_ne h]

theorem dictLookup_insertIf_self (c : Prop) [Decidable c] (k : String) (v : Value) (d : Dict) :
    dictLookup (insertIf c k v d) k = if c then some v else dictLookup d k := by
  unfold insertIf
  split <;> simp [dictLookup_dictInsert_self, *]

theorem dictLookup_insertForkUrl_ne {k : String} (h : k ≠ "eth_rpc_url")
    (o : Option String) (d : Dict) :
    dictLookup (insertForkUrl o d) k = dictLookup d k := by
  cases o <;> simp [insertForkUrl, dictLookup_dictInsert_ne h]

/-! ### Lookup characterization of the serde serialization, key by key -/

theorem lkSer_chain_id (a : EvmArgs) :
    dictLookup (serializeEvmArgsDict a) "chain_id" = a.env.chain_id.map Value.chain := by
  simp [serializeEvmArgsDict, serializeEnvArgs, dictLookup_append,
        dictLookup_optEntry_self, dictLookup_optEntry_ne, dictLookup]

theorem lkSer_eth_rpc_url (a : EvmArgs) :
    dictLookup (serializeEvmArgsDict a) "eth_rpc_url" = a.fork_url.map Value.str := by
  simp [serializeEvmArgsDict, serializeEnvArgs, dictLookup_append,
        dictLookup_optEntry_self, dictLookup_optEntry_ne, dictLookup]

theorem lkSer_fork_block_number (a : EvmArgs) :
    dictLookup (serializeEvmArgsDict a) "fork_block_number"
      = a.fork_block_number.map Value.nat := by
  simp [serializeEvmArgsDict, serializeEnvArgs, dictLookup_append,
        dictLookup_optEntry_self, dictLookup_optEntry_ne, dictLookup]

theorem lkSer_fork_retry_backoff (a : EvmArgs) :
    dictLookup (serializeEvmArgsDict a) "fork_retry_backoff"
      = a.fork_retry_backoff.map Value.nat := by
  simp [serializeEvmArgsDict, serializeEnvArgs, dictLookup_append,
        dictLookup_optEntry_self, dictLookup_optEntry_ne, dictLookup]

theorem lkSer_initial_balance (a : EvmArgs) :
    dictLookup (serializeEvmArgsDict a) "initial_balance"
      = a.initial_balance.map Value.u256 := by
  simp [serializeEvmArgsDict, serializeEnvArgs, dictLookup_append,
        dictLookup_optEntry_self, dictLookup_optEntry_ne, dictLookup]

theorem lkSer_sender (a : EvmArgs) :
    dictLookup (serializeEvmArgsDict a) "sender" = a.sender.map Value.addr := by
  simp [serializeEvmArgsDict, serializeEnvArgs, dictLookup_append,
        dictLookup_optEntry_self, dictLookup_optEntry_ne, dictLookup]

theorem lkSer_gas_limit (a : EvmArgs) :
    dictLookup (serializeEvmArgsDict a) "gas_limit" = a.env.gas_limit.map Value.nat := by
  simp [serializeEvmArgsDict, serializeEnvArgs, dictLookup_append,
        dictLookup_optEntry_self, dictLookup_optEntry_ne, dictLookup]

theorem lkSer_code_size_limit (a : EvmArgs) :
    dictLookup (serializeEvmArgsDict a) "code_size_limit"
      = a.env.code_size_limit.map Value.nat := by
  simp [serializeEvmArgsDict, serializeEnvArgs, dictLookup_append,
        dictLookup_optEntry_self, dictLookup_optEntry_ne, dictLookup]

theorem lkSer_gas_price (a : EvmArgs) :
    dictLookup (serializeEvmArgsDict a) "gas_price" = a.env.gas_price.map Value.nat := by
  simp [serializeEvmArgsDict, serializeEnvArgs, dictLookup_append,
        dictLookup_optEntry_self, dictLookup_optEntry_ne, dictLookup]

theorem lkSer_block_base_fee_per_gas (a : EvmArgs) :
    dictLookup (serializeEvmArgsDict a) "block_base_fee_per_gas"
      = a.env.block_base_fee_per_gas.map Value.nat := by
  simp [serializeEvmArgsDict, serializeEnvArgs, dictLookup_append,
        dictLookup_optEntry_self, dictLookup_optEntry_ne, dictLookup]

theorem lkSer_tx_origin (a : EvmArgs) :
    dictLookup (serializeEvmArgsDict a) "tx_origin" = a.env.tx_origin.map Value.addr := by
  simp [serializeEvmArgsDict, serializeEnvArgs, dictLookup_append,
        dictLookup_optEntry_self, dictLookup_optEntry_ne, dictLookup]

theorem lkSer_block_coinbase (a : EvmArgs) :
    dictLookup (serializeEvmArgsDict a) "block_coinbase"
      = a.env.block_coinbase.map Value.addr := by
  simp [serializeEvmArgsDict, serializeEnvArgs, dictLookup_append,
        dictLookup_optEntry_self, dictLookup_optEntry_ne, dictLookup]

theorem lkSer_block_timestamp (a : EvmArgs) :
    dictLookup (serializeEvmArgsDict a) "block_timestamp"
      = a.env.block_timestamp.map Value.nat := by
  simp [serializeEvmArgsDict, serializeEnvArgs, dictLookup_append,
        dictLookup_optEntry_self, dictLookup_optEntry_ne, dictLookup]

theorem lkSer_block_number (a : EvmArgs) :
    dictLookup (serializeEvmArgsDict a) "block_number"
      = a.env.block_number.map Value.nat := by
  simp [serializeEvmArgsDict, serializeEnvArgs, dictLookup_append,
        dictLookup_optEntry_self, dictLookup_optEntry_ne, dictLookup]

theorem lkSer_block_difficulty (a : EvmArgs) :
    dictLookup (serializeEvmArgsDict a) "block_difficulty"
      = a.env.block_difficulty.map Value.nat := by
  simp [serializeEvmArgsDict, serializeEnvArgs, dictLookup_append,
        dictLookup_optEntry_self, dictLookup_optEntry_ne, dictLookup]

theorem lkSer_block_prevrandao (a : EvmArgs) :
    dictLookup (serializeEvmArgsDict a) "block_prevrandao"
      = a.env.block_prevrandao.map Value.h256 := by
  simp [serializeEvmArgsDict, serializeEnvArgs, dictLookup_append,
        dictLookup_optEntry_self, dictLookup_optEntry_ne, dictLookup]

theorem lkSer_block_gas_limit (a : EvmArgs) :
    dictLookup (serializeEvmArgsDict a) "block_gas_limit"
      = a.env.block_gas_limit.map Value.nat := by
  simp [serializeEvmArgsDict, serializeEnvArgs, dictLookup_append,
        dictLookup_optEntry_self, dictLookup_optEntry_ne, dictLookup]

theorem lkSer_memory_limit (a : EvmArgs) :
    dictLookup (serializeEvmArgsDict a) "memory_limit"
      = a.env.memory_limit.map Value.nat := by
  simp [serializeEvmArgsDict, serializeEnvArgs, dictLookup_append,
        dictLookup_optEntry_self, dictLookup_optEntry_ne, dictLookup]

theorem lkSer_compute_units_per_second (a : EvmArgs) :
    dictLookup (serializeEvmArgsDict a) "compute_units_per_second"
      = some (serializeOptionValue Value.nat a.compute_units_per_second) := by
  simp [serializeEvmArgsDict, serializeEnvArgs, dictLookup_append,
        dictLookup_optEntry_self, dictLookup_optEntry_ne, dictLookup]

theorem lkSer_verbosity (a : EvmArgs) :
    dictLookup (serializeEvmArgsDict a) "verbosity" = none := by
  simp [serializeEvmArgsDict, serializeEnvArgs, dictLookup_append,
        dictLookup_optEntry_self, dictLookup_optEntry_ne, dictLookup]

theorem lkSer_ffi (a : EvmArgs) :
    dictLookup (serializeEvmArgsDict a) "ffi" = none := by
  simp [serializeEvmArgsDict, serializeEnvArgs, dictLookup_append,
        dictLookup_optEntry_self, dictLookup_optEntry_ne, dictLookup]

theorem lkSer_no_storage_caching (a : EvmArgs) :
    dictLookup (serializeEvmArgsDict a) "no_storage_caching" = none := by
  simp [serializeEvmArgsDict, serializeEnvArgs, dictLookup_append,
        dictLookup_optEntry_self, dictLookup_optEntry_ne, dictLookup]

theorem lkSer_no_rpc_rate_limit (a : EvmArgs) :
    dictLookup (serializeEvmArgsDict a) "no_rpc_rate_limit" = none := by
  simp [serializeEvmArgsDict, serializeEnvArgs, dictLookup_append,
        dictLookup_optEntry_self, dictLookup_optEntry_ne, dictLookup]

/-! ### Lookup characterization of the final dictionary `Provider::data` builds -/

theorem data_eq_ok (a : EvmArgs) :
    a.data = .ok [(selected_profile, a.finalDict)] := rfl

theorem lkFinal_untouched (a : EvmArgs) (k : String)
    (h1 : k ≠ "verbosity") (h2 : k ≠ "ffi") (h3 : k ≠ "no_storage_caching")
    (h4 : k ≠ "no_rpc_rate_limit") (h5 : k ≠ "eth_rpc_url") :
    dictLookup a.finalDict k = dictLookup (serializeEvmArgsDict a) k := by
  unfold EvmArgs.finalDict applyManualInserts manualFlagInserts
  rw [dictLookup_insertForkUrl_ne h5, dictLookup_insertIf_ne h4,
      dictLookup_insertIf_ne h3, dictLookup_insertIf_ne h2, dictLookup_insertIf_ne h1]

theorem lkFinal_verbosity (a : EvmArgs) :
    dictLookup a.finalDict "verbosity"
      = if 0 < a.verbosity then some (Value.nat a.verbosity) else none := by
  unfold EvmArgs.finalDict applyManualInserts manualFlagInserts
  rw [dictLookup_insertForkUrl_ne (by simp), dictLookup_insertIf_ne (by simp),
      dictLookup_insertIf_ne (by simp), dictLookup_insertIf_ne (by simp),
      dictLookup_insertIf_self, lkSer_verbosity]

theorem lkFinal_ffi (a : EvmArgs) :
    dictLookup a.finalDict "ffi"
      = if a.ffi then some (Value.boolV true) else none := by
  unfold EvmArgs.finalDict applyManualInserts manualFlagInserts
  rw [dictLookup_insertForkUrl_ne (by simp), dictLookup_insertIf_ne (by simp),
      dictLookup_insertIf_ne (by simp), dictLookup_insertIf_self]
  cases h : a.ffi <;> simp [h, dictLookup_insertIf_ne, lkSer_ffi]

theorem lkFinal_no_storage_caching (a : EvmArgs) :
    dictLookup a.finalDict "no_storage_caching"
      = if a.no_storage_caching then some (Value.boolV true) else none := by
  unfold EvmArgs.finalDict applyManualInserts manualFlagInserts
  rw [dictLookup_insertForkUrl_ne (by simp), dictLookup_insertIf_ne (by simp),
      dictLookup_insertIf_self]
  cases h : a.no_storage_caching <;>
    simp [h, dictLookup_insertIf_ne, lkSer_no_storage_caching]

theorem lkFinal_no_rpc_rate_limit (a : EvmArgs) :
    dictLookup a.finalDict "no_rpc_rate_limit"
      = if a.no_rpc_rate_limit then some (Value.boolV true) else none := by
  unfold EvmArgs.finalDict applyManualInserts manualFlagInserts
  rw [dictLookup_insertForkUrl_ne (by simp), dictLookup_insertIf_self]
  cases h : a.no_rpc_rate_limit <;>
    simp [h, dictLookup_insertIf_ne, lkSer_no_rpc_rate_limit]

theorem lkNoReinsert_eth_rpc_url (a : EvmArgs) :
    dictLookup (manualFlagInserts a (serializeEvmArgsDict a)) "eth_rpc_url"
      = a.fork_url.map Value.str := by
  unfold manualFlagInserts
  rw [dictLookup_insertIf_ne (by simp), dictLookup_insertIf_ne (by simp),
      dictLookup_insertIf_ne (by simp), dictLookup_insertIf_ne (by simp),
      lkSer_eth_rpc_url]

theorem lkFinal_eth_rpc_url (a : EvmArgs) :
    dictLookup a.finalDict "eth_rpc_url" = a.fork_url.map Value.str := by
  unfold EvmArgs.finalDict applyManualInserts manualFlagInserts
  cases h : a.fork_url with
  | some u => simp [insertForkUrl, dictLookup_dictInsert_self]
  | none =>
    simp only [insertForkUrl]
    rw [dictLookup_insertIf_ne (by simp), dictLookup_insertIf_ne (by simp),
        dictLookup_insertIf_ne (by simp), dictLookup_insertIf_ne (by simp),
        lkSer_eth_rpc_url, h]

/-! ### Claim theorems -/

/-- C1: for every overlay whose `chain_id` field is set, merging the
overlay's provider map onto a base configuration yields a chain id equal to
the overlay's `chain_id` value — the override wins over the base default. -/
theorem c1_chain_id_override (base : String → Value) (a : EvmArgs) (c : Nat) (d : Dict)
    (hc : a.env.chain_id = some c)
    (hd : a.data = Except.ok [(selected_profile, d)]) :
    mergeOverlay base d "chain_id" = Value.chain c := by
  rw [data_eq_ok] at hd
  have hfd : a.finalDict = d := by simpa using hd
  subst hfd
  unfold mergeOverlay
  rw [lkFinal_untouched _ _ (by simp) (by simp) (by simp) (by simp) (by simp),
      lkSer_chain_id, hc]
  rfl

/-- Witness for C1 at a concrete overlay with chain id 1. -/
theorem c1_chain_id_override_witness :
    mergeOverlay (fun _ => Value.empty)
      [("chain_id", Value.chain 1), ("compute_units_per_second", Value.empty)]
      "chain_id" = Value.chain 1 :=
  c1_chain_id_override (fun _ => Value.empty) { env := { chain_id := some 1 } } 1
    [("chain_id", Value.chain 1), ("compute_units_per_second", Value.empty)] rfl rfl

/-- C2: `ensure_fork_url` fails with the missing-required-field error
exactly when no fork url was supplied, and returns exactly the stored
string when one was. -/
theorem c2_ensure_fork_url_spec (a : EvmArgs) :
    (a.ensure_fork_url = Except.error "Missing `--fork-url` field." ↔ a.fork_url = none)
    ∧ ∀ u, a.fork_url = some u → a.ensure_fork_url = Except.ok u := by
  cases h : a.fork_url <;> simp [EvmArgs.ensure_fork_url, h]

/-- Witness for C2 at a concrete overlay with a fork url set. -/
theorem c2_ensure_fork_url_spec_witness :
    EvmArgs.ensure_fork_url { fork_url := some "http://localhost:8545" }
      = Except.ok "http://localhost:8545" :=
  (c2_ensure_fork_url_spec { fork_url := some "http://localhost:8545" }).2 _ rfl

/-- C3: the provider map has a `verbosity` entry exactly when the verbosity
counter is positive, and the entry's value is the counter; at the zero
default there is no entry. -/
theorem c3_verbosity_entry (a : EvmArgs) (d : Dict)
    (hd : a.data = Except.ok [(selected_profile, d)]) :
    dictLookup d "verbosity"
      = if 0 < a.verbosity then some (Value.nat a.verbosity) else none := by
  rw [data_eq_ok] at hd
  have hfd : a.finalDict = d := by simpa using hd
  subst hfd
  exact lkFinal_verbosity a

/-- Witness for C3 at a concrete overlay with verbosity 3. -/
theorem c3_verbosity_entry_witness :
    dictLookup [("compute_units_per_second", Value.empty), ("verbosity", Value.nat 3)]
      "verbosity" = some (Value.nat 3) := by
  have h := c3_verbosity_entry { verbosity := 3 }
    [("compute_units_per_second", Value.empty), ("verbosity", Value.nat 3)] rfl
  simpa using h

/-- C4: each of the three boolean flags (`ffi`, `no_storage_caching`,
`no_rpc_rate_limit`) appears in the provider map exactly when the flag is
true, and then with value true; a false flag has no entry. -/
theorem c4_flag_entries (a : EvmArgs) (d : Dict)
    (hd : a.data = Except.ok [(selected_profile, d)]) :
    (dictLookup d "ffi" = if a.ffi then some (Value.boolV true) else none)
    ∧ (dictLookup d "no_storage_caching"
        = if a.no_storage_caching then some (Value.boolV true) else none)
    ∧ (dictLookup d "no_rpc_rate_limit"
        = if a.no_rpc_rate_limit then some (Value.boolV true) else none) := by
  rw [data_eq_ok] at hd
  have hfd : a.finalDict = d := by simpa using hd
  subst hfd
  exact ⟨lkFinal_ffi a, lkFinal_no_storage_caching a, lkFinal_no_rpc_rate_limit a⟩

/-- Witness for C4 at a concrete overlay with only the FFI flag set. -/
theorem c4_flag_entries_witness :
    dictLookup [("compute_units_per_second", Value.empty), ("ffi", Value.boolV true)]
      "ffi" = some (Value.boolV true)
    ∧ dictLookup [("compute_units_per_second", Value.empty), ("ffi", Value.boolV true)]
      "no_storage_caching" = none := by
  have h := c4_flag_entries { ffi := true }
    [("compute_units_per_second", Value.empty), ("ffi", Value.boolV true)] rfl
  exact ⟨by simpa using h.1, by simpa using h.2.1⟩

/-- C5 counterexample: the default overlay leaves `compute_units_per_second`
unset, yet its profile dictionary does contain an entry for that key (the
field carries no skip-if-none serde attribute and serializes to
`Empty::None`), so the skip-if-unset rule fails for this optional field. -/
theorem c5_skip_if_unset_counterexample :
    defaultEvmArgs.compute_units_per_second = none
    ∧ defaultEvmArgs.data
        = Except.ok [(selected_profile, [("compute_units_per_second", Value.empty)])]
    ∧ dictLookup [("compute_units_per_second", Value.empty)] "compute_units_per_second"
        ≠ none :=
  ⟨rfl, rfl, by simp [dictLookup]⟩

/-- C5 (amended): an overlay with `memory_limit` unset contributes no
memory-limit entry, so the merge leaves the base's memory-limit default
untouched; the same skip-if-unset rule holds for every other unset optional
field except `compute_units_per_second`, which always appears, as an
empty-valued placeholder when unset. -/
theorem c5_unset_fields_skipped (base : String → Value) (a : EvmArgs) (d : Dict)
    (hd : a.data = Except.ok [(selected_profile, d)]) :
    (a.env.memory_limit = none → dictLookup d "memory_limit" = none
        ∧ mergeOverlay base d "memory_limit" = base "memory_limit")
    ∧ (a.fork_url = none → dictLookup d "eth_rpc_url" = none)
    ∧ (a.fork_block_number = none → dictLookup d "fork_block_number" = none)
    ∧ (a.fork_retry_backoff = none → dictLookup d "fork_retry_backoff" = none)
    ∧ (a.initial_balance = none → dictLookup d "initial_balance" = none)
    ∧ (a.sender = none → dictLookup d "sender" = none)
    ∧ (a.env.gas_limit = none → dictLookup d "gas_limit" = none)
    ∧ (a.env.code_size_limit = none → dictLookup d "code_size_limit" = none)
    ∧ (a.env.chain_id = none → dictLookup d "chain_id" = none)
    ∧ (a.env.gas_price = none → dictLookup d "gas_price" = none)
    ∧ (a.env.block_base_fee_per_gas = none → dictLookup d "block_base_fee_per_gas" = none)
    ∧ (a.env.tx_origin = none → dictLookup d "tx_origin" = none)
    ∧ (a.env.block_coinbase = none → dictLookup d "block_coinbase" = none)
    ∧ (a.env.block_timestamp = none → dictLookup d "block_timestamp" = none)
    ∧ (a.env.block_number = none → dictLookup d "block_number" = none)
    ∧ (a.env.block_difficulty = none → dictLookup d "block_difficulty" = none)
    ∧ (a.env.block_prevrandao = none → dictLookup d "block_prevrandao" = none)
    ∧ (a.env.block_gas_limit = none → dictLookup d "block_gas_limit" = none)
    ∧ (a.compute_units_per_second = none →
        dictLookup d "compute_units_per_second" = some Value.empty) := by
  rw [data_eq_ok] at hd
  have hfd : a.finalDict = d := by simpa using hd
  subst hfd
  refine ⟨?_, ?_, ?_, ?_, ?_, ?_, ?_, ?_, ?_, ?_, ?_, ?_, ?_, ?_, ?_, ?_, ?_, ?_, ?_⟩
  · intro h
    have hl : dictLookup a.finalDict "memory_limit" = none := by
      rw [lkFinal_untouched _ _ (by simp) (by simp) (by simp) (by simp) (by simp),
          lkSer_memory_limit, h]
      rfl
    refine ⟨hl, ?_⟩
    unfold mergeOverlay
    rw [hl]
  · intro h
    rw [lkFinal_eth_rpc_url, h]
    rfl
  · intro h
    rw [lkFinal_untouched _ _ (by simp) (by simp) (by simp) (by simp) (by simp),
        lkSer_fork_block_number, h]
    rfl
  · intro h
    rw [lkFinal_untouched _ _ (by simp) (by simp) (by simp) (by simp) (by simp),
        lkSer_fork_retry_backoff, h]
    rfl
  · intro h
    rw [lkFinal_untouched _ _ (by simp) (by simp) (by simp) (by simp) (by simp),
        lkSer_initial_balance, h]
    rfl
  · intro h
    rw [lkFinal_untouched _ _ (by simp) (by simp) (by simp) (by simp) (by simp),
        lkSer_sender, h]
    rfl
  · intro h
    rw [lkFinal_untouched _ _ (by simp) (by simp) (by simp) (by simp) (by simp),
        lkSer_gas_limit, h]
    rfl
  · intro h
    rw [lkFinal_untouched _ _ (by simp) (by simp) (by simp) (by simp) (by simp),
        lkSer_code_size_limit, h]
    rfl
  · intro h
    rw [lkFinal_untouched _ _ (by simp) (by simp) (by simp) (by simp) (by simp),
        lkSer_chain_id, h]
    rfl
  · intro h
    rw [lkFinal_untouched _ _ (by simp) (by simp) (by simp) (by simp) (by simp),
        lkSer_gas_price, h]
    rfl
  · intro h
    rw [lkFinal_untouched _ _ (by simp) (by simp) (by simp) (by simp) (by simp),
        lkSer_block_base_fee_per_gas, h]
    rfl
  · intro h
    rw [lkFinal_untouched _ _ (by simp) (by simp) (by simp) (by simp) (by simp),
        lkSer_tx_origin, h]
    rfl
  · intro h
    rw [lkFinal_untouched _ _ (by simp) (by simp) (by simp) (by simp) (by simp),
        lkSer_block_coinbase, h]
    rfl
  · intro h
    rw [lkFinal_untouched _ _ (by simp) (by simp) (by simp) (by simp) (by simp),
        lkSer_block_timestamp, h]
    rfl
  · intro h
    rw [lkFinal_untouched _ _ (by simp) (by simp) (by simp) (by simp) (by simp),
        lkSer_block_number, h]
    rfl
  · intro h
    rw [lkFinal_untouched _ _ (by simp) (by simp) (by simp) (by simp) (by simp),
        lkSer_block_difficulty, h]
    rfl
  · intro h
    rw [lkFinal_untouched _ _ (by simp) (by simp) (by simp) (by simp) (by simp),
        lkSer_block_prevrandao, h]
    rfl
  · intro h
    rw [lkFinal_untouched _ _ (by simp) (by simp) (by simp) (by simp) (by simp),
        lkSer_block_gas_limit, h]
    rfl
  · intro h
    rw [lkFinal_untouched _ _ (by simp) (by simp) (by simp) (by simp) (by simp),
        lkSer_compute_units_per_second, h]
    rfl

/-- Witness for C5 (amended) at the default overlay with a base whose
memory limit is 42. -/
theorem c5_unset_fields_skipped_witness :
    dictLookup [("compute_units_per_second", Value.empty)] "memory_limit" = none
    ∧ mergeOverlay (fun _ => Value.nat 42) [("compute_units_per_second", Value.empty)]
        "memory_limit" = Value.nat 42
    ∧ dictLookup [("compute_units_per_second", Value.empty)] "compute_units_per_second"
        = some Value.empty := by
  have h := c5_unset_fields_skipped (fun _ => Value.nat 42) defaultEvmArgs
    [("compute_units_per_second", Value.empty)] rfl
  exact ⟨(h.1 rfl).1, (h.1 rfl).2,
    h.2.2.2.2.2.2.2.2.2.2.2.2.2.2.2.2.2.2 rfl⟩

/-- C6: when the fork url is present, the provider map carries it under the
`eth_rpc_url` key (the serde rename, not the internal field name), and the
unconditional manual re-insert writes the same key and value that the serde
serialization already produced, so it never changes the resulting map. -/
theorem c6_fork_url_reinsert (a : EvmArgs) (u : String) (d : Dict)
    (hu : a.fork_url = some u)
    (hd : a.data = Except.ok [(selected_profile, d)]) :
    dictLookup d "eth_rpc_url" = some (Value.str u)
    ∧ d = a.finalDictNoReinsert := by
  rw [data_eq_ok] at hd
  have hfd : a.finalDict = d := by simpa using hd
  subst hfd
  refine ⟨?_, ?_⟩
  · rw [lkFinal_eth_rpc_url, hu]
    rfl
  · unfold EvmArgs.finalDict applyManualInserts EvmArgs.finalDictNoReinsert
    rw [hu]
    unfold insertForkUrl
    apply dictInsert_eq_of_lookup
    rw [lkNoReinsert_eth_rpc_url, hu]
    rfl

/-- Witness for C6 at a concrete overlay with a fork url set. -/
theorem c6_fork_url_reinsert_witness :
    dictLookup
      [("eth_rpc_url", Value.str "http://x"), ("compute_units_per_second", Value.empty)]
      "eth_rpc_url" = some (Value.str "http://x")
    ∧ [("eth_rpc_url", Value.str "http://x"), ("compute_units_per_second", Value.empty)]
      = EvmArgs.finalDictNoReinsert { fork_url := some "http://x" } :=
  c6_fork_url_reinsert { fork_url := some "http://x" } "http://x"
    [("eth_rpc_url", Value.str "http://x"), ("compute_units_per_second", Value.empty)]
    rfl rfl

/-- C7: the provider map always has exactly one top-level key, the
currently selected profile, with all serialized pairs grouped under it. -/
theorem c7_single_profile_key (a : EvmArgs) (m : List (String × Dict))
    (hm : a.data = Except.ok m) :
    m = [(selected_profile, a.finalDict)] ∧ m.map Prod.fst = [selected_profile] := by
  rw [data_eq_ok] at hm
  have h : [(selected_profile, a.finalDict)] = m := by simpa using hm
  subst h
  exact ⟨rfl, rfl⟩

/-- Witness for C7 at the default overlay. -/
theorem c7_single_profile_key_witness :
    [(selected_profile, defaultEvmArgs.finalDict)].map Prod.fst = [selected_profile] :=
  (c7_single_profile_key defaultEvmArgs [(selected_profile, defaultEvmArgs.finalDict)]
    rfl).2

/-- C8: the defensive `InvalidType` branch is unreachable — serializing the
overlay always yields a dictionary, so `Provider::data` always succeeds. -/
theorem c8_data_never_fails (a : EvmArgs) :
    (valueSerialize a).into_dict = some (serializeEvmArgsDict a)
    ∧ ∃ m, a.data = Except.ok m :=
  ⟨rfl, [(selected_profile, a.finalDict)], data_eq_ok a⟩

/-- C9 counterexample: the default-constructed overlay does NOT produce an
empty profile dictionary — it contains the `Empty::None` placeholder entry
for `compute_units_per_second`, the one field without a skip-if-none serde
attribute. -/
theorem c9_default_dict_counterexample :
    defaultEvmArgs.data
      = Except.ok [(selected_profile, [("compute_units_per_second", Value.empty)])]
    ∧ ([("compute_units_per_second", Value.empty)] : Dict) ≠ ([] : Dict) :=
  ⟨rfl, by simp⟩

/-- C9 (amended): the default overlay's profile dictionary consists of
exactly the empty-valued `compute_units_per_second` placeholder — no field
contributes a concrete hard-coded default — so merging a default overlay
leaves every base key other than `compute_units_per_second` unchanged. -/
theorem c9_default_overlay (base : String → Value) (k : String)
    (hk : k ≠ "compute_units_per_second") :
    defaultEvmArgs.finalDict = [("compute_units_per_second", Value.empty)]
    ∧ mergeOverlay base defaultEvmArgs.finalDict k = base k := by
  refine ⟨rfl, ?_⟩
  unfold mergeOverlay
  rw [show defaultEvmArgs.finalDict = [("compute_units_per_second", Value.empty)] from rfl]
  simp [dictLookup, hk]

/-- Witness for C9 (amended) at the base key `memory_limit`. -/
theorem c9_default_overlay_witness :
    defaultEvmArgs.finalDict = [("compute_units_per_second", Value.empty)]
    ∧ mergeOverlay (fun _ => Value.nat 7) defaultEvmArgs.finalDict "memory_limit"
      = Value.nat 7 :=
  c9_default_overlay (fun _ => Value.nat 7) "memory_limit" (by simp)

/-- C10: the provider operation and `ensure_fork_url` are pure,
deterministic functions of the overlay (the Rust methods take `&self`, do
no I/O and mutate nothing, so the embedding is functional): equal overlays
yield equal provider maps and equal accessor results. -/
theorem c10_deterministic (a b : EvmArgs) (h : a = b) :
    a.data = b.data ∧ a.ensure_fork_url = b.ensure_fork_url := by
  subst h
  exact ⟨rfl, rfl⟩

/-- Witness for C10 at the default overlay. -/
theorem c10_deterministic_witness :
    defaultEvmArgs.data = defaultEvmArgs.data
    ∧ defaultEvmArgs.ensure_fork_url = defaultEvmArgs.ensure_fork_url :=
  c10_deterministic defaultEvmArgs defaultEvmArgs rfl

end FoundryEvm
